import Mathlib

/-!
Shallow embedding of the method-call resolution and type-checking subsystem
found in `sway-core/src/semantic_analysis/ast_node/expression/typed_expression/method_application.rs`.

The two functions of that file, `type_check_method_application` and
`resolve_method_name`, are translated block by block.  External collaborators
(the namespace's symbol/method lookup, the unifier, the monomorphizer, the
recursive expression checker) are modelled as function-valued fields of
`TypeCheckContext`, following the interface signatures the spec lists for them.
The type interner and the declaration store are modelled concretely as
append-only lists addressed by numeric handles, so that insertion and parent
links can be reasoned about.
-/

/-- Source span: the source file path (used by the visibility check, which
compares `span.path()`), plus the spanned text (an identifier's span renders
the identifier's text via `as_str`). -/
structure Span where
  path : Option String
  text : String
  deriving DecidableEq, Repr

/-- An identifier together with its source span.  In the source, `Ident`
equality and `span().as_str()` both go through the identifier's text. -/
structure Ident where
  name : String
  span : Span
  deriving DecidableEq, Repr

/-- A resolved call path: prefixes, suffix and absoluteness flag. -/
structure CallPath where
  prefixes : List Ident
  suffix : Ident
  is_absolute : Bool
  deriving DecidableEq, Repr

/-- Modelled from the spec: `CallPath::span` is defined outside the provided
sources; diagnostics carry the originating source span of the call path, here
taken from its suffix. -/
def CallPath.span (cp : CallPath) : Span := cp.suffix.span

/-- Type handles are opaque numeric ids into the type interner. -/
abbrev TypeId := Nat

/-- Integer bit widths of the language's unsigned integer types. -/
inductive IntegerBits where
  | Eight
  | Sixteen
  | ThirtyTwo
  | SixtyFour
  deriving DecidableEq, Repr

mutual

/-- The typed-expression variants this subsystem constructs or inspects:
variable references (for the receiver-mutability check), the final
function-application node, the error-marker expression substituted for a
failed argument, and an opaque stand-in for every other variant. -/
inductive TyExpressionVariant : Type where
  | VariableExpression (name : Ident)
  | FunctionApplication (call_path : CallPath)
      (contract_call_params : List (String × TyExpression))
      (arguments : List (Ident × TyExpression))
      (function_decl_id : Nat)
      (self_state_idx : Option Nat)
      (selector : Option ContractCallParamsRes)
  | ErrorMarker
  | OtherVariant (tag : Nat)

/-- A typed expression: variant, return type handle, span. -/
inductive TyExpression : Type where
  | mk (expression : TyExpressionVariant) (return_type : TypeId) (span : Span)

/-- The resolved selector bundle of a contract call: the four selector bytes
and the contract-address expression. -/
inductive ContractCallParamsRes : Type where
  | mk (func_selector : List Nat) (contract_address : TyExpression)
end

def TyExpression.expression : TyExpression → TyExpressionVariant
  | .mk e _ _ => e

def TyExpression.return_type : TyExpression → TypeId
  | .mk _ t _ => t

def TyExpression.span : TyExpression → Span
  | .mk _ _ s => s

/-- The type descriptors this subsystem inserts or inspects; every other
descriptor of the language is an opaque stand-in. -/
inductive TypeInfo : Type where
  | Unknown
  | ErrorRecovery
  | UnsignedInteger (bits : IntegerBits)
  | B256
  | Custom (name : Ident)
  | ContractCaller (abi_name : Nat) (address : Option TyExpression)
  | OtherTypeInfo (tag : Nat)

/-- The type interner: an append-only slab of type descriptors addressed by
numeric handles. -/
structure TypeEngine where
  types : List TypeInfo

def TypeEngine.insert_type (te : TypeEngine) (info : TypeInfo) : TypeId × TypeEngine :=
  (te.types.length, ⟨te.types ++ [info]⟩)

def TypeEngine.look_up_type_id (te : TypeEngine) (id : TypeId) : TypeInfo :=
  te.types.getD id TypeInfo.Unknown

/-- Declaration visibility. -/
inductive Visibility where
  | Public
  | Private
  deriving DecidableEq, Repr

def Visibility.is_private : Visibility → Bool
  | .Private => true
  | .Public => false

/-- Purity classification of a callable: whether it reads and/or writes
persistent storage. -/
inductive Purity where
  | Pure
  | Reads
  | Writes
  | ReadsWrites
  deriving DecidableEq, Repr

/-- Attribute kinds attached to a declaration; only `payable` is inspected
here. -/
inductive AttributeKind where
  | Payable
  | OtherAttributeKind (tag : Nat)
  deriving DecidableEq, Repr

/-- A callable's parameter: name, mutability flag, `self` flag and declared
type handle. -/
structure TyFunctionParameter where
  name : Ident
  is_self : Bool
  is_mutable : Bool
  type_id : TypeId

/-- A callable declaration as consumed by this subsystem. -/
structure TyFunctionDeclaration where
  name : Ident
  span : Span
  visibility : Visibility
  purity : Purity
  is_contract_call : Bool
  parameters : List TyFunctionParameter
  return_type : TypeId
  attributes : List AttributeKind

/-- The declaration store: an append-only slab of function declarations plus
the parent links recorded by `with_parent`. -/
structure DeclarationEngine where
  functions : List TyFunctionDeclaration
  parents : List (Nat × Nat)

def DeclarationEngine.get_function (de : DeclarationEngine) (id : Nat) :
    Option TyFunctionDeclaration :=
  de.functions.get? id

def DeclarationEngine.insert_function (de : DeclarationEngine)
    (d : TyFunctionDeclaration) : Nat × DeclarationEngine :=
  (de.functions.length, { de with functions := de.functions ++ [d] })

def DeclarationEngine.with_parent (de : DeclarationEngine) (id parent : Nat) :
    DeclarationEngine :=
  { de with parents := de.parents ++ [(id, parent)] }

/-- Variable mutability of a variable declaration. -/
inductive VariableMutability where
  | Mutable
  | Immutable
  deriving DecidableEq, Repr

def VariableMutability.is_mutable : VariableMutability → Bool
  | .Mutable => true
  | .Immutable => false

/-- The declaration shapes `resolve_symbol` can return, as inspected by the
receiver-mutability check: constants, variables, and everything else (for
which `expect_variable` fails). -/
inductive TyDeclaration where
  | ConstantDeclaration
  | VariableDeclaration (mutability : VariableMutability)
  | OtherDeclaration (tag : Nat)
  deriving DecidableEq, Repr

/-- A declared storage field (only its name is inspected here). -/
structure TyStorageField where
  name : Ident
  type_id : TypeId

/-- Warnings are opaque to this subsystem. -/
abbrev Warning := Nat

/-- The compile errors this subsystem can emit, plus an opaque stand-in for
errors produced by collaborators. -/
inductive CompileError where
  | CallingPrivateLibraryMethod (name : String) (span : Span)
  | StorageAccessMismatch (attrs : String) (span : Span)
  | CallParamForNonContractCallMethod (span : Span)
  | ContractCallParamRepeated (param_name : String) (span : Span)
  | UnrecognizedContractParam (param_name : String) (span : Span)
  | CoinsPassedToNonPayableMethod (fn_name : Ident) (span : Span)
  | StorageFieldDoesNotExist (name : Ident)
  | AssociatedFunctionCalledAsMethod (fn_name : Ident) (span : Span)
  | MethodRequiresMutableSelf (method_name : Ident) (variable_name : Ident) (span : Span)
  | InternalError (msg : String) (span : Span)
  | ContractAddressMustBeKnown (span : Span)
  | ArgumentParameterTypeMismatch (span : Span) (provided : String) (should_be : String)
  | ArgumentCountMismatch (method_call_style : Bool) (fn_name : String)
      (expected : Nat) (received : Nat) (span : Span)
  | DeclNotFoundErr
  | DeclIsNotAVariable
  | OtherCompileError (tag : Nat)
  deriving DecidableEq, Repr

/-- The compile-result shape: a value (present or absent) together with the
accumulated warnings and errors; `ok` may carry errors (non-fatal
diagnostics), `err` is the fatal outcome with no value. -/
inductive CompileResult (α : Type) where
  | ok (value : α) (warnings : List Warning) (errors : List CompileError)
  | err (warnings : List Warning) (errors : List CompileError)
  deriving DecidableEq, Repr

/-- The parsed (untyped) expression shapes this subsystem inspects: the
storage-access shape of the first argument, and everything else. -/
inductive ExpressionKind where
  | StorageAccess (field_names : List Ident)
  | OtherKind (tag : Nat)
  deriving DecidableEq, Repr

/-- A parsed expression: kind and span. -/
structure Expression where
  kind : ExpressionKind
  span : Span
  deriving DecidableEq, Repr

/-- A named argument of contract-call parameter syntax (`gas: e` etc.). -/
structure StructExpressionField where
  name : Ident
  value : Expression
  deriving DecidableEq, Repr

/-- A binding of explicit generic type arguments and a span around an inner
item (type arguments are opaque handles here). -/
structure TypeBinding (α : Type) where
  inner : α
  type_arguments : List Nat
  span : Span

/-- The call path of a `FromType` method name: prefixes, a suffix holding the
receiver's type descriptor with its span, and an absoluteness flag. -/
structure TypeCallPath where
  prefixes : List Ident
  suffix : TypeInfo × Span
  is_absolute : Bool

/-- How the callee was written: `Type::method` / known-receiver-type syntax,
trait-qualified syntax, or bare method-call syntax. -/
inductive MethodName where
  | FromType (call_path_binding : TypeBinding TypeCallPath) (method_name : Ident)
  | FromTrait (call_path : CallPath)
  | FromModule (method_name : Ident)

/-- Modelled from the spec: `MethodName::easy_name` is defined outside the
provided sources; it yields the callee's identifier for diagnostics. -/
def MethodName.easy_name : MethodName → Ident
  | .FromType _ m => m
  | .FromTrait cp => cp.suffix
  | .FromModule m => m

/-- The namespace collaborator, by the interface this subsystem consumes. -/
structure Namespace where
  has_storage_declared : Bool
  storage_field_descriptors : CompileResult (List TyStorageField)
  resolve_symbol : Ident → CompileResult TyDeclaration
  find_module_path : List Ident → List Ident
  check_submodule : List Ident → CompileResult Unit
  find_method_for_type : TypeId → List Ident → Ident → TypeId → List TyExpression →
    CompileResult Nat

/-- The type-check context threaded through the subsystem: the namespace, the
ambient self type and purity, and the external collaborators consumed as
black boxes (recursive expression checking, call-path type checking,
monomorphization, the coins static analysis, selector computation,
unification, purity promotion and type rendering). -/
structure TypeCheckContext where
  ns : Namespace
  self_type : TypeId
  purity : Purity
  can_call : Purity → Purity → Bool
  promote_purity_attr : Purity → Purity → String
  type_check : TypeId → Expression → CompileResult TyExpression
  type_check_with_type_info : TypeBinding TypeCallPath → CompileResult TypeId
  monomorphize : TyFunctionDeclaration → List Nat → Span → CompileResult TyFunctionDeclaration
  possibly_nonzero_u64_expression : TyExpression → Bool
  to_fn_selector_value : TyFunctionDeclaration → CompileResult (List Nat)
  unify_right_with_self : TypeId → TypeId → TypeId → Span → List Warning × List CompileError
  help_out : TypeId → String

def CONTRACT_CALL_GAS_PARAMETER_NAME : String := "gas"

def CONTRACT_CALL_COINS_PARAMETER_NAME : String := "coins"

def CONTRACT_CALL_ASSET_ID_PARAMETER_NAME : String := "asset_id"

/-- Modelled from the spec: `TyExpression::error` is defined outside the
provided sources; a failed sub-check is replaced by an error-marker expression
whose type is the error sentinel, freshly interned. -/
def TyExpression.error (span : Span) (te : TypeEngine) : TyExpression × TypeEngine :=
  let (tid, te1) := te.insert_type TypeInfo.ErrorRecovery
  (TyExpression.mk TyExpressionVariant.ErrorMarker tid span, te1)

/-- Hash-map insertion on the association-list model: replace an existing
binding for the key, else add one. -/
def mapInsert : List (String × TyExpression) → String → TyExpression →
    List (String × TyExpression)
  | [], k, v => [(k, v)]
  | (k', v') :: rest, k, v =>
    if k' = k then (k, v) :: rest else (k', v') :: mapInsert rest k v

/-- Hash-map lookup on the association-list model. -/
def mapLookup : List (String × TyExpression) → String → Option TyExpression
  | [], _ => none
  | (k', v') :: rest, k => if k' = k then some v' else mapLookup rest k

/-- The argument-checking loop of `type_check_method_application`: each
argument is type-checked against a freshly interned `Unknown` annotation; on
failure an error-marker expression is substituted and checking continues
(degrade-and-continue).  Returns the typed arguments, the final interner
state, and the accumulated diagnostics. -/
def type_check_arguments (ctx : TypeCheckContext) (te : TypeEngine) (span : Span) :
    List Expression → List TyExpression × TypeEngine × List Warning × List CompileError
  | [] => ([], te, [], [])
  | arg :: rest =>
    let (tid, te1) := te.insert_type TypeInfo.Unknown
    match ctx.type_check tid arg with
    | .ok v w e =>
      let r := type_check_arguments ctx te1 span rest
      (v :: r.1, r.2.1, w ++ r.2.2.1, e ++ r.2.2.2)
    | .err w e =>
      let (errExp, te2) := TyExpression.error span te1
      let r := type_check_arguments ctx te2 span rest
      (errExp :: r.1, r.2.1, w ++ r.2.2.1, e ++ r.2.2.2)

/-- The dispatch of `resolve_method_name` on the method-name shape, producing
the pre-instantiation declaration id: `FromType` type-checks the call path and
queries the method in the path's module; `FromTrait` and `FromModule` take the
first argument's type (or a fresh `Unknown`) as receiver and query in the
trait path's module resp. the root module. -/
def resolve_decl_id (ctx : TypeCheckContext) (te : TypeEngine)
    (method_name : TypeBinding MethodName) (arguments : List TyExpression) :
    CompileResult Nat × TypeEngine :=
  match method_name.inner with
  | .FromType call_path_binding m =>
    let tcr :=
      match ctx.type_check_with_type_info call_path_binding with
      | .ok tid w e => (tid, te, w, e)
      | .err w e =>
        let (tid, te') := te.insert_type TypeInfo.ErrorRecovery
        (tid, te', w, e)
    let type_info_mod_path := ctx.ns.find_module_path call_path_binding.inner.prefixes
    match ctx.ns.check_submodule type_info_mod_path with
    | .err w e => (.err (tcr.2.2.1 ++ w) (tcr.2.2.2 ++ e), tcr.2.1)
    | .ok _ w e =>
      match ctx.ns.find_method_for_type tcr.1 type_info_mod_path m ctx.self_type arguments with
      | .err w' e' => (.err (tcr.2.2.1 ++ w ++ w') (tcr.2.2.2 ++ e ++ e'), tcr.2.1)
      | .ok d w' e' => (.ok d (tcr.2.2.1 ++ w ++ w') (tcr.2.2.2 ++ e ++ e'), tcr.2.1)
  | .FromTrait call_path =>
    let module_path := ctx.ns.find_module_path call_path.prefixes
    let tcr :=
      match arguments.head? with
      | some x => (x.return_type, te)
      | none => te.insert_type TypeInfo.Unknown
    match ctx.ns.find_method_for_type tcr.1 module_path call_path.suffix ctx.self_type arguments with
    | .err w e => (.err w e, tcr.2)
    | .ok d w e => (.ok d w e, tcr.2)
  | .FromModule m =>
    let module_path := ctx.ns.find_module_path []
    let tcr :=
      match arguments.head? with
      | some x => (x.return_type, te)
      | none => te.insert_type TypeInfo.Unknown
    match ctx.ns.find_method_for_type tcr.1 module_path m ctx.self_type arguments with
    | .err w e => (.err w e, tcr.2)
    | .ok d w e => (.ok d w e, tcr.2)

/-- `resolve_method_name`: resolve the pre-instantiation declaration id,
retrieve the declaration, monomorphize it against the binding's explicit type
arguments, insert the instantiated copy as a new declaration and record the
pre-instantiation id as its parent. -/
def resolve_method_name (ctx : TypeCheckContext) (te : TypeEngine)
    (de : DeclarationEngine) (method_name : TypeBinding MethodName)
    (arguments : List TyExpression) :
    CompileResult Nat × TypeEngine × DeclarationEngine :=
  match resolve_decl_id ctx te method_name arguments with
  | (.err w e, te1) => (.err w e, te1, de)
  | (.ok decl_id w e, te1) =>
    match de.get_function decl_id with
    | none => (.err w (e ++ [CompileError.DeclNotFoundErr]), te1, de)
    | some func_decl =>
      match ctx.monomorphize func_decl method_name.type_arguments method_name.span with
      | .err w' e' => (.err (w ++ w') (e ++ e'), te1, de)
      | .ok new_decl w' e' =>
        let (new_id, de1) := de.insert_function new_decl
        let de2 := de1.with_parent new_id decl_id
        (.ok new_id (w ++ w') (e ++ e'), te1, de2)

/-- The storage-purity and call-parameter checks applied to non-contract
calls: a purity violation and the presence of contract-call-style parameters
are each reported (non-fatally); the latter is reported once, at the first
supplied parameter's location. -/
def purity_and_call_param_errors (ctx : TypeCheckContext)
    (method : TyFunctionDeclaration) (method_name_binding : TypeBinding MethodName)
    (contract_call_params : List StructExpressionField) : List CompileError :=
  if method.is_contract_call then [] else
    (if ctx.can_call ctx.purity method.purity then [] else
      [CompileError.StorageAccessMismatch
        (ctx.promote_purity_attr ctx.purity method.purity)
        method_name_binding.inner.easy_name.span]) ++
    (match contract_call_params with
     | [] => []
     | p :: _ => [CompileError.CallParamForNonContractCallMethod p.name.span])

/-- The repeated-parameter check of a contract call: for each of the three
legal parameter names, one diagnostic when that name is supplied more than
once. -/
def repeated_param_errors (contract_call_params : List StructExpressionField)
    (span : Span) : List CompileError :=
  [CONTRACT_CALL_GAS_PARAMETER_NAME, CONTRACT_CALL_COINS_PARAMETER_NAME,
   CONTRACT_CALL_ASSET_ID_PARAMETER_NAME].filterMap (fun param_name =>
    if 1 < (contract_call_params.filter
        (fun p => p.name.name == param_name)).length then
      some (CompileError.ContractCallParamRepeated param_name span)
    else none)

/-- The contract-call parameter loop: a legal name (`gas`, `coins`,
`asset_id`) has its value type-checked against a `u64` (resp. `b256` for
`asset_id`) annotation and inserted into the parameter map (error-marker on
failure); an unrecognized name is reported at the parameter's own location. -/
def type_check_contract_call_params (ctx : TypeCheckContext) (span : Span) :
    List StructExpressionField → TypeEngine → List (String × TyExpression) →
    List (String × TyExpression) × TypeEngine × List Warning × List CompileError
  | [], te, m => (m, te, [], [])
  | param :: rest, te, m =>
    if param.name.name = CONTRACT_CALL_GAS_PARAMETER_NAME ∨
        param.name.name = CONTRACT_CALL_COINS_PARAMETER_NAME ∨
        param.name.name = CONTRACT_CALL_ASSET_ID_PARAMETER_NAME then
      let info :=
        if param.name.name ≠ CONTRACT_CALL_ASSET_ID_PARAMETER_NAME then
          TypeInfo.UnsignedInteger IntegerBits.SixtyFour
        else TypeInfo.B256
      let (tid, te1) := te.insert_type info
      match ctx.type_check tid param.value with
      | .ok v w e =>
        let r := type_check_contract_call_params ctx span rest te1
          (mapInsert m param.name.name v)
        (r.1, r.2.1, w ++ r.2.2.1, e ++ r.2.2.2)
      | .err w e =>
        let (errExp, te2) := TyExpression.error span te1
        let r := type_check_contract_call_params ctx span rest te2
          (mapInsert m param.name.name errExp)
        (r.1, r.2.1, w ++ r.2.2.1, e ++ r.2.2.2)
    else
      let r := type_check_contract_call_params ctx span rest te m
      (r.1, r.2.1, r.2.2.1,
        CompileError.UnrecognizedContractParam param.name.name param.name.span :: r.2.2.2)

/-- The payability check: if a `coins` expression was supplied and static
analysis cannot prove it zero while the callee lacks the payable attribute,
the fatal non-payable error is produced; an absent `coins` parameter never
triggers it. -/
def coins_check (ctx : TypeCheckContext) (method : TyFunctionDeclaration)
    (m : List (String × TyExpression)) (span : Span) : Option CompileError :=
  match mapLookup m CONTRACT_CALL_COINS_PARAMETER_NAME with
  | some coins_expr =>
    if ctx.possibly_nonzero_u64_expression coins_expr ∧
        ¬ method.attributes.contains AttributeKind.Payable then
      some (CompileError.CoinsPassedToNonPayableMethod method.name span)
    else none
  | none => none

/-- The storage-field-index computation: when storage is declared, a first
argument that syntactically is a storage access has its first field looked up
among the declared storage fields; a missing field is a fatal error, a found
field yields its index; otherwise the index is `none`. -/
def determine_state_idx (ns : Namespace) (arguments : List Expression)
    (span : Span) : CompileResult (Option Nat) :=
  if ns.has_storage_declared then
    match ns.storage_field_descriptors with
    | .err w e => .err w e
    | .ok storage_fields w e =>
      match arguments.head?.map Expression.kind with
      | some (ExpressionKind.StorageAccess field_names) =>
        let first_field := field_names.headD ⟨"", ⟨none, ""⟩⟩
        match storage_fields.enum.find?
            (fun p => p.2.name.name == first_field.name) with
        | some p => .ok (some p.1) w e
        | none => .err w (e ++ [CompileError.StorageFieldDoesNotExist first_field])
      | _ => .ok none w e
  else .ok none [] []

/-- The call-syntax-shape check: a non-contract call written with bare
method-call syntax (`FromModule`) requires the resolved declaration's first
parameter to be `self`; returns the fatal error (if any) and whether
method-call syntax was used. -/
def associated_fn_shape_err (method : TyFunctionDeclaration)
    (inner : MethodName) (span : Span) : Option CompileError × Bool :=
  if method.is_contract_call then (none, false) else
    match inner with
    | .FromModule method_name =>
      let is_first_param_self := (method.parameters.head?.map
        (fun f => f.is_self)).getD false
      if is_first_param_self then (none, true)
      else (some (CompileError.AssociatedFunctionCalledAsMethod method_name span), true)
    | _ => (none, false)

/-- The receiver-mutability check: when the first argument is a variable
reference and the declaration's first parameter is marked mutable, the
variable's declaration is resolved through the namespace; a constant or an
immutable variable binding is the fatal mutable-self error, a non-variable
declaration fails `expect_variable`. -/
def check_mutable_self (ctx : TypeCheckContext) (args_buf : List TyExpression)
    (method : TyFunctionDeclaration) (method_name_binding : TypeBinding MethodName)
    (span : Span) : CompileResult Unit :=
  match args_buf.head?, method.parameters.head? with
  | some arg0, some param0 =>
    match arg0.expression with
    | .VariableExpression name =>
      if param0.is_mutable then
        match ctx.ns.resolve_symbol name with
        | .err w e => .err w e
        | .ok unknown_decl w e =>
          match unknown_decl with
          | .ConstantDeclaration =>
            .err w (e ++ [CompileError.MethodRequiresMutableSelf
              method_name_binding.inner.easy_name name span])
          | .VariableDeclaration mu =>
            if mu.is_mutable then .ok () w e
            else
              .err w (e ++ [CompileError.MethodRequiresMutableSelf
                method_name_binding.inner.easy_name name span])
          | .OtherDeclaration _ => .err w (e ++ [CompileError.DeclIsNotAVariable])
      else .ok () [] []
    | _ => .ok () [] []
  | _, _ => .ok () [] []

/-- The call-path computation: `FromType` uses the named nominal type as a
single-segment prefix when present, else the binding's prefixes; `FromModule`
has no prefixes; `FromTrait` keeps its call path. -/
def compute_call_path : MethodName → CallPath
  | .FromType call_path_binding method_name =>
    let pfx :=
      match call_path_binding.inner.suffix.1 with
      | TypeInfo.Custom name => [name]
      | _ => call_path_binding.inner.prefixes
    ⟨pfx, method_name, call_path_binding.inner.is_absolute⟩
  | .FromModule method_name => ⟨[], method_name, false⟩
  | .FromTrait call_path => call_path

/-- The selector builder: for a contract call, the first typed argument (the
contract caller) is removed; its type must be a contract-caller descriptor
(else an internal error), whose address must be statically known (else the
fatal unknown-address error); selector computation failure degrades to the
all-zero sentinel.  Returns the selector bundle and the remaining
arguments. -/
def build_selector (ctx : TypeCheckContext) (te : TypeEngine)
    (method : TyFunctionDeclaration) (args_buf : List TyExpression)
    (call_path : CallPath) (span : Span) :
    CompileResult (Option ContractCallParamsRes × List TyExpression) :=
  if method.is_contract_call then
    let contract_caller := args_buf.head?
    let rest := args_buf.tail
    let adr :=
      match contract_caller.map (fun x => te.look_up_type_id x.return_type) with
      | some (TypeInfo.ContractCaller _ address) => (address, ([] : List CompileError))
      | _ => (none, [CompileError.InternalError
          "Attempted to find contract address of non-contract-call." span])
    match adr.1 with
    | none => .err [] (adr.2 ++ [CompileError.ContractAddressMustBeKnown call_path.span])
    | some addr =>
      match ctx.to_fn_selector_value method with
      | .ok fs w e => .ok (some (ContractCallParamsRes.mk fs addr), rest) w (adr.2 ++ e)
      | .err w e =>
        .ok (some (ContractCallParamsRes.mk [0, 0, 0, 0] addr), rest) w (adr.2 ++ e)
  else .ok (none, args_buf) [] []

/-- Modelled from the spec: `check_function_arguments_arity` is imported from
a sibling module not included in the provided sources.  Per the spec, the
resolved parameter count must equal the (post contract-caller-removal)
argument count; a mismatch fails with an argument-count-mismatch error whose
message is distinct for method-call and function-call syntax. -/
def check_function_arguments_arity (arguments_len : Nat)
    (method : TyFunctionDeclaration) (call_path : CallPath)
    (is_method_call_syntax_used : Bool) : CompileResult Unit :=
  if method.parameters.length = arguments_len then .ok () [] []
  else
    .err [] [CompileError.ArgumentCountMismatch is_method_call_syntax_used
      call_path.suffix.name method.parameters.length arguments_len call_path.span]

/-- The argument/parameter unification loop: each argument's type is unified
against its positional parameter's declared type; the unifier's warnings are
kept, its errors are non-fatally replaced by one argument-type-mismatch
diagnostic per failing argument. -/
def unify_arguments (ctx : TypeCheckContext) :
    List TyExpression → List TyFunctionParameter → List Warning × List CompileError
  | arg :: args, param :: ps =>
    let u := ctx.unify_right_with_self arg.return_type param.type_id ctx.self_type arg.span
    let e1 :=
      if u.2.isEmpty then ([] : List CompileError)
      else
        [CompileError.ArgumentParameterTypeMismatch arg.span
          (ctx.help_out arg.return_type) (ctx.help_out param.type_id)]
    let r := unify_arguments ctx args ps
    (u.1 ++ r.1, e1 ++ r.2)
  | _, _ => ([], [])

/-- The body of `type_check_method_application`, translated block by block in
source order: argument checking, name resolution, declaration retrieval,
visibility, purity / stray call-params, contract-call parameter validation and
payability, storage-field index, call-syntax shape, receiver mutability, call
path, selector, arity, unification, and assembly of the final expression. -/
def type_check_method_application (ctx : TypeCheckContext) (te : TypeEngine)
    (de : DeclarationEngine) (method_name_binding : TypeBinding MethodName)
    (contract_call_params : List StructExpressionField)
    (arguments : List Expression) (span : Span) :
    CompileResult TyExpression × TypeEngine × DeclarationEngine :=
  match type_check_arguments ctx te span arguments with
  | (args_buf, te1, w0, e0) =>
    match resolve_method_name ctx te1 de method_name_binding args_buf with
    | (.err w1 e1, te2, de1) => (.err (w0 ++ w1) (e0 ++ e1), te2, de1)
    | (.ok decl_id w1 e1, te2, de1) =>
      match de1.get_function decl_id with
      | none => (.err (w0 ++ w1) (e0 ++ e1 ++ [CompileError.DeclNotFoundErr]), te2, de1)
      | some method =>
        if span.path ≠ method.span.path ∧ method.visibility.is_private = true then
          (.err (w0 ++ w1)
            (e0 ++ e1 ++ [CompileError.CallingPrivateLibraryMethod method.name.name span]),
            te2, de1)
        else
          let e2 := purity_and_call_param_errors ctx method method_name_binding
            contract_call_params
          let e3 :=
            if method.is_contract_call then repeated_param_errors contract_call_params span
            else []
          let cc :=
            if method.is_contract_call then
              type_check_contract_call_params ctx span contract_call_params te2 []
            else ([], te2, [], [])
          let ccp_map := cc.1
          let te3 := cc.2.1
          let w2 := cc.2.2.1
          let e4 := cc.2.2.2
          match
            (if method.is_contract_call then coins_check ctx method ccp_map span
             else none) with
          | some cerr =>
            (.err (w0 ++ w1 ++ w2) (e0 ++ e1 ++ e2 ++ e3 ++ e4 ++ [cerr]), te3, de1)
          | none =>
            match determine_state_idx ctx.ns arguments span with
            | .err w3 e5 =>
              (.err (w0 ++ w1 ++ w2 ++ w3) (e0 ++ e1 ++ e2 ++ e3 ++ e4 ++ e5), te3, de1)
            | .ok self_state_idx w3 e5 =>
              let shape := associated_fn_shape_err method method_name_binding.inner span
              match shape.1 with
              | some serr =>
                (.err (w0 ++ w1 ++ w2 ++ w3)
                  (e0 ++ e1 ++ e2 ++ e3 ++ e4 ++ e5 ++ [serr]), te3, de1)
              | none =>
                match check_mutable_self ctx args_buf method method_name_binding span with
                | .err w4 e6 =>
                  (.err (w0 ++ w1 ++ w2 ++ w3 ++ w4)
                    (e0 ++ e1 ++ e2 ++ e3 ++ e4 ++ e5 ++ e6), te3, de1)
                | .ok _ w4 e6 =>
                  let call_path := compute_call_path method_name_binding.inner
                  match build_selector ctx te3 method args_buf call_path span with
                  | .err w5 e7 =>
                    (.err (w0 ++ w1 ++ w2 ++ w3 ++ w4 ++ w5)
                      (e0 ++ e1 ++ e2 ++ e3 ++ e4 ++ e5 ++ e6 ++ e7), te3, de1)
                  | .ok sel w5 e7 =>
                    match check_function_arguments_arity sel.2.length method call_path
                      shape.2 with
                    | .err w6 e8 =>
                      (.err (w0 ++ w1 ++ w2 ++ w3 ++ w4 ++ w5 ++ w6)
                        (e0 ++ e1 ++ e2 ++ e3 ++ e4 ++ e5 ++ e6 ++ e7 ++ e8), te3, de1)
                    | .ok _ w6 e8 =>
                      let u := unify_arguments ctx sel.2 method.parameters
                      let args_and_names := (method.parameters.zip sel.2).map
                        (fun pa => (pa.1.name, pa.2))
                      let exp := TyExpression.mk
                        (TyExpressionVariant.FunctionApplication call_path ccp_map
                          args_and_names decl_id self_state_idx sel.1)
                        method.return_type span
                      (.ok exp (w0 ++ w1 ++ w2 ++ w3 ++ w4 ++ w5 ++ w6 ++ u.1)
                        (e0 ++ e1 ++ e2 ++ e3 ++ e4 ++ e5 ++ e6 ++ e7 ++ e8 ++ u.2),
                        te3, de1)

/-! Concrete fixtures used by the witnesses: a small namespace and context
whose collaborator functions are concrete closures, a public and a private
method declaration, and simple spans and identifiers. -/

def spanMain : Span := ⟨some "main.sw", "call"⟩

def spanLib : Span := ⟨some "lib.sw", "decl"⟩

def identFoo : Ident := ⟨"foo", ⟨some "main.sw", "foo"⟩⟩

def identX : Ident := ⟨"x", ⟨some "main.sw", "x"⟩⟩

/-- A typed variable expression standing for the checked receiver argument. -/
def argExprX : TyExpression :=
  TyExpression.mk (TyExpressionVariant.VariableExpression identX) 5 identX.span

def ns0 : Namespace :=
  { has_storage_declared := false
    storage_field_descriptors := .ok [] [] []
    resolve_symbol := fun _ => .ok (.VariableDeclaration .Mutable) [] []
    find_module_path := fun p => p
    check_submodule := fun _ => .ok () [] []
    find_method_for_type := fun _ _ _ _ _ => .ok 0 [] [] }

def ctx0 : TypeCheckContext :=
  { ns := ns0
    self_type := 0
    purity := .Pure
    can_call := fun _ _ => true
    promote_purity_attr := fun _ _ => ""
    type_check := fun _ _ => .ok argExprX [] []
    type_check_with_type_info := fun _ => .ok 0 [] []
    monomorphize := fun d _ _ => .ok d [] []
    possibly_nonzero_u64_expression := fun _ => true
    to_fn_selector_value := fun _ => .ok [1, 2, 3, 4] [] []
    unify_right_with_self := fun _ _ _ _ => ([], [])
    help_out := fun _ => "" }

/-- A public single-parameter (`self`) method declared in the caller's unit. -/
def methodPub : TyFunctionDeclaration :=
  { name := identFoo
    span := spanMain
    visibility := .Public
    purity := .Pure
    is_contract_call := false
    parameters := [⟨⟨"self", spanMain⟩, true, false, 5⟩]
    return_type := 7
    attributes := [] }

/-- The same method, but private and declared in a different unit. -/
def methodPriv : TyFunctionDeclaration :=
  { methodPub with visibility := .Private, span := spanLib }

def te0 : TypeEngine := ⟨[]⟩

def de0 : DeclarationEngine := ⟨[methodPub], []⟩

def dePriv : DeclarationEngine := ⟨[methodPriv], []⟩

/-- A trait-qualified method name binding (no explicit type arguments). -/
def mnbTrait : TypeBinding MethodName :=
  ⟨MethodName.FromTrait ⟨[], identFoo, false⟩, [], spanMain⟩

/-- An opaque parsed argument expression. -/
def argX : Expression := ⟨ExpressionKind.OtherKind 0, identX.span⟩

def identBalance : Ident := ⟨"balance", spanMain⟩

def identMissing : Ident := ⟨"missing", spanMain⟩

/-- A namespace with one declared storage field, `balance`. -/
def nsStor : Namespace :=
  { ns0 with
    has_storage_declared := true
    storage_field_descriptors := .ok [⟨identBalance, 9⟩] [] [] }

def ctxStor : TypeCheckContext := { ctx0 with ns := nsStor }

/-- A parsed first argument that syntactically is `storage.missing`. -/
def argStorageMissing : Expression :=
  ⟨ExpressionKind.StorageAccess [identMissing], spanMain⟩

/-- A context whose symbol resolution yields an immutable variable binding. -/
def ctxImm : TypeCheckContext :=
  { ctx0 with
    ns := { ns0 with
      resolve_symbol := fun _ => .ok (.VariableDeclaration .Immutable) [] [] } }

/-- The public method with a mutable first (`self`) parameter. -/
def methodMut : TyFunctionDeclaration :=
  { methodPub with parameters := [⟨⟨"self", spanMain⟩, true, true, 5⟩] }

def deMut : DeclarationEngine := ⟨[methodMut], []⟩

/-- The contract address expression embedded in the caller's type. -/
def addrExpr : TyExpression := TyExpression.mk (TyExpressionVariant.OtherVariant 1) 3 spanMain

/-- The typed contract-caller argument; its type handle 0 resolves to a
contract-caller descriptor in `teC`. -/
def argExprCaller : TyExpression :=
  TyExpression.mk (TyExpressionVariant.OtherVariant 2) 0 spanMain

def ctxC : TypeCheckContext :=
  { ctx0 with type_check := fun _ _ => .ok argExprCaller [] [] }

def teC : TypeEngine := ⟨[TypeInfo.ContractCaller 0 (some addrExpr)]⟩

/-- A parameterless, non-payable contract-call declaration. -/
def methodContract : TyFunctionDeclaration :=
  { name := identFoo
    span := spanMain
    visibility := .Public
    purity := .Pure
    is_contract_call := true
    parameters := []
    return_type := 7
    attributes := [] }

def deC : DeclarationEngine := ⟨[methodContract], []⟩

def identCoins : Ident := ⟨"coins", spanMain⟩

def ccpCoins : List StructExpressionField := [⟨identCoins, argX⟩]

def argCaller : Expression := ⟨ExpressionKind.OtherKind 1, spanMain⟩

/-- The errors carried by a compile result, fatal or not. -/
def CompileResult.errors {α : Type} : CompileResult α → List CompileError
  | .ok _ _ e => e
  | .err _ e => e

/-- Recognizer for a repeated-parameter diagnostic naming `name`. -/
def is_repeated_for (name : String) : CompileError → Bool
  | .ContractCallParamRepeated n _ => n == name
  | _ => false

/-- Recognizer for an unrecognized-contract-parameter diagnostic. -/
def is_unrecognized_param_error : CompileError → Bool
  | .UnrecognizedContractParam _ _ => true
  | _ => false

def identGas : Ident := ⟨"gas", spanMain⟩

def identGasB : Ident := ⟨"gas", spanLib⟩

def identFooP : Ident := ⟨"foo", spanLib⟩

/-- Contract-call parameters supplying `gas` twice and the unknown `foo`. -/
def ccpW : List StructExpressionField :=
  [⟨identGas, argX⟩, ⟨identGasB, argX⟩, ⟨identFooP, argX⟩]

/-- Recognizer for the stray-call-parameter diagnostic. -/
def is_call_param_for_non_contract : CompileError → Bool
  | .CallParamForNonContractCallMethod _ => true
  | _ => false

/-- The self-state index embedded in a function-application expression
(`none` when the expression is not a function application). -/
def getSelfStateIdx (e : TyExpression) : Option (Option Nat) :=
  match e.expression with
  | .FunctionApplication _ _ _ _ idx _ => some idx
  | _ => none

/-- Two contract-call-style parameters supplied to a non-contract call. -/
def ccp2 : List StructExpressionField := [⟨identGas, argX⟩, ⟨identFooP, argX⟩]

/-- A parsed first argument that syntactically is `storage.balance`. -/
def argStorageB : Expression :=
  ⟨ExpressionKind.StorageAccess [identBalance], spanMain⟩

/-- The expression produced by the counterexample run for C8. -/
def expStorageNone : TyExpression :=
  TyExpression.mk
    (TyExpressionVariant.FunctionApplication ⟨[], identFoo, false⟩ []
      [(⟨"self", spanMain⟩, argExprX)] 1 none none)
    7 spanMain

/-- C5: for every call whose resolution yields a declaration that is private
and owned by a different source unit than the call site, the function returns
immediately with no expression, the error list ending at exactly the
private-method error — no later check contributes a diagnostic. -/
theorem private_method_called_aborts_immediately
    (ctx : TypeCheckContext) (te : TypeEngine) (de : DeclarationEngine)
    (mnb : TypeBinding MethodName) (ccp : List StructExpressionField)
    (arguments : List Expression) (span : Span)
    (args_buf : List TyExpression) (te1 : TypeEngine)
    (w0 : List Warning) (e0 : List CompileError)
    (decl_id : Nat) (w1 : List Warning) (e1 : List CompileError)
    (te2 : TypeEngine) (de1 : DeclarationEngine) (method : TyFunctionDeclaration)
    (hargs : type_check_arguments ctx te span arguments = (args_buf, te1, w0, e0))
    (hres : resolve_method_name ctx te1 de mnb args_buf = (.ok decl_id w1 e1, te2, de1))
    (hget : de1.get_function decl_id = some method)
    (hpath : span.path ≠ method.span.path)
    (hpriv : method.visibility.is_private = true) :
    type_check_method_application ctx te de mnb ccp arguments span =
      (.err (w0 ++ w1)
        (e0 ++ e1 ++ [CompileError.CallingPrivateLibraryMethod method.name.name span]),
        te2, de1) := by
  unfold type_check_method_application
  simp only [hargs, hres, hget]
  rw [if_pos ⟨hpath, hpriv⟩]

/-- Witness for C5: a concrete call to a private method declared in
`lib.sw`, made from `main.sw` with a correctly typed argument, aborts with
exactly the private-method error. -/
theorem private_method_called_aborts_immediately_witness :
    type_check_method_application ctx0 te0 dePriv mnbTrait [] [argX] spanMain =
      (.err []
        ([] ++ [] ++ [CompileError.CallingPrivateLibraryMethod "foo" spanMain]),
        ⟨[TypeInfo.Unknown]⟩,
        ⟨[methodPriv, methodPriv], [(1, 0)]⟩) :=
  private_method_called_aborts_immediately ctx0 te0 dePriv mnbTrait [] [argX] spanMain
    [argExprX] ⟨[TypeInfo.Unknown]⟩ [] [] 1 [] [] ⟨[TypeInfo.Unknown]⟩
    ⟨[methodPriv, methodPriv], [(1, 0)]⟩ methodPriv
    rfl rfl rfl (by decide) rfl

/-- C2: when every check before the arity comparison passes but the argument
count remaining after the contract-caller removal differs from the resolved
declaration's parameter count, the function aborts with the
argument-count-mismatch error and returns no expression — independently of
whether the argument types would unify (nothing about the unifier is
assumed). -/
theorem argument_count_mismatch_aborts
    (ctx : TypeCheckContext) (te : TypeEngine) (de : DeclarationEngine)
    (mnb : TypeBinding MethodName) (ccp : List StructExpressionField)
    (arguments : List Expression) (span : Span)
    (args_buf : List TyExpression) (te1 : TypeEngine)
    (w0 : List Warning) (e0 : List CompileError)
    (decl_id : Nat) (w1 : List Warning) (e1 : List CompileError)
    (te2 : TypeEngine) (de1 : DeclarationEngine) (method : TyFunctionDeclaration)
    (ccp_map : List (String × TyExpression)) (te3 : TypeEngine)
    (w2 : List Warning) (e4 : List CompileError)
    (idx : Option Nat) (w3 : List Warning) (e5 : List CompileError)
    (used : Bool) (w4 : List Warning) (e6 : List CompileError)
    (selector : Option ContractCallParamsRes) (rest : List TyExpression)
    (w5 : List Warning) (e7 : List CompileError)
    (hargs : type_check_arguments ctx te span arguments = (args_buf, te1, w0, e0))
    (hres : resolve_method_name ctx te1 de mnb args_buf = (.ok decl_id w1 e1, te2, de1))
    (hget : de1.get_function decl_id = some method)
    (hvis : ¬(span.path ≠ method.span.path ∧ method.visibility.is_private = true))
    (hcc : (if method.is_contract_call = true then
        type_check_contract_call_params ctx span ccp te2 []
      else ([], te2, [], [])) = (ccp_map, te3, w2, e4))
    (hcoins : (if method.is_contract_call = true then
        coins_check ctx method ccp_map span else none) = none)
    (hstor : determine_state_idx ctx.ns arguments span = .ok idx w3 e5)
    (hshape : associated_fn_shape_err method mnb.inner span = (none, used))
    (hmut : check_mutable_self ctx args_buf method mnb span = .ok () w4 e6)
    (hsel : build_selector ctx te3 method args_buf (compute_call_path mnb.inner) span =
      .ok (selector, rest) w5 e7)
    (hlen : ¬ method.parameters.length = rest.length) :
    type_check_method_application ctx te de mnb ccp arguments span =
      (.err (w0 ++ w1 ++ w2 ++ w3 ++ w4 ++ w5 ++ [])
        (e0 ++ e1 ++ purity_and_call_param_errors ctx method mnb ccp ++
          (if method.is_contract_call = true then repeated_param_errors ccp span else []) ++
          e4 ++ e5 ++ e6 ++ e7 ++
          [CompileError.ArgumentCountMismatch used
            (compute_call_path mnb.inner).suffix.name
            method.parameters.length rest.length (compute_call_path mnb.inner).span]),
        te3, de1) := by
  unfold type_check_method_application
  simp only [hargs, hres, hget]
  rw [if_neg hvis]
  simp only [hcc, hcoins, hstor, hshape, hmut, hsel, check_function_arguments_arity,
    if_neg hlen]

/-- Witness for C2: a concrete zero-argument call to a one-parameter public
method aborts with the argument-count-mismatch error. -/
theorem argument_count_mismatch_aborts_witness :
    type_check_method_application ctx0 te0 de0 mnbTrait [] [] spanMain =
      (.err []
        [CompileError.ArgumentCountMismatch false "foo" 1 0 identFoo.span],
        ⟨[TypeInfo.Unknown]⟩, ⟨[methodPub, methodPub], [(1, 0)]⟩) :=
  argument_count_mismatch_aborts ctx0 te0 de0 mnbTrait [] [] spanMain
    [] te0 [] [] 1 [] [] ⟨[TypeInfo.Unknown]⟩ ⟨[methodPub, methodPub], [(1, 0)]⟩
    methodPub [] ⟨[TypeInfo.Unknown]⟩ [] [] none [] [] false [] [] none [] [] []
    rfl rfl rfl (by decide) rfl rfl rfl rfl rfl rfl (by decide)

/-- When storage is declared and the first argument is a storage access whose
first field matches none of the declared storage fields, the storage-index
computation fails with the missing-field error. -/
theorem determine_state_idx_missing_field
    (ns : Namespace) (arguments : List Expression) (span : Span)
    (fields : List TyStorageField) (wf : List Warning) (ef : List CompileError)
    (fns : List Ident)
    (h1 : ns.has_storage_declared = true)
    (h2 : ns.storage_field_descriptors = .ok fields wf ef)
    (h3 : arguments.head?.map Expression.kind =
      some (ExpressionKind.StorageAccess fns))
    (h4 : fields.enum.find?
        (fun p => p.2.name.name == (fns.headD ⟨"", ⟨none, ""⟩⟩).name) = none) :
    determine_state_idx ns arguments span =
      .err wf (ef ++ [CompileError.StorageFieldDoesNotExist
        (fns.headD ⟨"", ⟨none, ""⟩⟩)]) := by
  unfold determine_state_idx
  rw [h1]
  rw [if_pos rfl]
  simp only [h2, h3, h4]

/-- C10: when storage is declared in the namespace and the call's first
argument syntactically is a storage-field access whose first field name
matches none of the declared storage fields, the whole call fails fatally
with the storage-field-does-not-exist error and no expression is returned. -/
theorem storage_field_does_not_exist_aborts
    (ctx : TypeCheckContext) (te : TypeEngine) (de : DeclarationEngine)
    (mnb : TypeBinding MethodName) (ccp : List StructExpressionField)
    (arguments : List Expression) (span : Span)
    (args_buf : List TyExpression) (te1 : TypeEngine)
    (w0 : List Warning) (e0 : List CompileError)
    (decl_id : Nat) (w1 : List Warning) (e1 : List CompileError)
    (te2 : TypeEngine) (de1 : DeclarationEngine) (method : TyFunctionDeclaration)
    (ccp_map : List (String × TyExpression)) (te3 : TypeEngine)
    (w2 : List Warning) (e4 : List CompileError)
    (fields : List TyStorageField) (wf : List Warning) (ef : List CompileError)
    (fns : List Ident)
    (hargs : type_check_arguments ctx te span arguments = (args_buf, te1, w0, e0))
    (hres : resolve_method_name ctx te1 de mnb args_buf = (.ok decl_id w1 e1, te2, de1))
    (hget : de1.get_function decl_id = some method)
    (hvis : ¬(span.path ≠ method.span.path ∧ method.visibility.is_private = true))
    (hcc : (if method.is_contract_call = true then
        type_check_contract_call_params ctx span ccp te2 []
      else ([], te2, [], [])) = (ccp_map, te3, w2, e4))
    (hcoins : (if method.is_contract_call = true then
        coins_check ctx method ccp_map span else none) = none)
    (h1 : ctx.ns.has_storage_declared = true)
    (h2 : ctx.ns.storage_field_descriptors = .ok fields wf ef)
    (h3 : arguments.head?.map Expression.kind =
      some (ExpressionKind.StorageAccess fns))
    (h4 : fields.enum.find?
        (fun p => p.2.name.name == (fns.headD ⟨"", ⟨none, ""⟩⟩).name) = none) :
    type_check_method_application ctx te de mnb ccp arguments span =
      (.err (w0 ++ w1 ++ w2 ++ wf)
        (e0 ++ e1 ++ purity_and_call_param_errors ctx method mnb ccp ++
          (if method.is_contract_call = true then repeated_param_errors ccp span else []) ++
          e4 ++ (ef ++ [CompileError.StorageFieldDoesNotExist
            (fns.headD ⟨"", ⟨none, ""⟩⟩)])),
        te3, de1) := by
  have hstor := determine_state_idx_missing_field ctx.ns arguments span fields wf ef fns
    h1 h2 h3 h4
  unfold type_check_method_application
  simp only [hargs, hres, hget]
  rw [if_neg hvis]
  simp only [hcc, hcoins, hstor]

/-- Witness for C10: a concrete call whose first argument accesses the
undeclared storage field `missing` aborts with the missing-field error. -/
theorem storage_field_does_not_exist_aborts_witness :
    type_check_method_application ctxStor te0 de0 mnbTrait [] [argStorageMissing]
      spanMain =
      (.err [] [CompileError.StorageFieldDoesNotExist identMissing],
        ⟨[TypeInfo.Unknown]⟩, ⟨[methodPub, methodPub], [(1, 0)]⟩) :=
  storage_field_does_not_exist_aborts ctxStor te0 de0 mnbTrait [] [argStorageMissing]
    spanMain [argExprX] ⟨[TypeInfo.Unknown]⟩ [] [] 1 [] [] ⟨[TypeInfo.Unknown]⟩
    ⟨[methodPub, methodPub], [(1, 0)]⟩ methodPub [] ⟨[TypeInfo.Unknown]⟩ [] []
    [⟨identBalance, 9⟩] [] [] [identMissing]
    rfl rfl rfl (by decide) rfl rfl rfl rfl rfl rfl

/-- The receiver-mutability check fails exactly as the source writes it when
the first argument names a constant or an immutable variable binding. -/
theorem check_mutable_self_not_mutable
    (ctx : TypeCheckContext) (args_buf : List TyExpression)
    (method : TyFunctionDeclaration) (mnb : TypeBinding MethodName) (span : Span)
    (arg0 : TyExpression) (name : Ident) (param0 : TyFunctionParameter)
    (d : TyDeclaration) (wrs : List Warning) (ers : List CompileError)
    (harg : args_buf.head? = some arg0)
    (hvar : arg0.expression = .VariableExpression name)
    (hparam : method.parameters.head? = some param0)
    (hmut : param0.is_mutable = true)
    (hsym : ctx.ns.resolve_symbol name = .ok d wrs ers)
    (hd : d = .ConstantDeclaration ∨ d = .VariableDeclaration .Immutable) :
    check_mutable_self ctx args_buf method mnb span =
      .err wrs (ers ++ [CompileError.MethodRequiresMutableSelf
        mnb.inner.easy_name name span]) := by
  unfold check_mutable_self
  rw [harg, hparam]
  simp only [hvar, hmut, hsym]
  rcases hd with hd | hd <;> subst hd <;> rfl

/-- C4: when the resolved declaration's first parameter is marked mutable and
the first argument is a variable reference, a binding that resolves to a
constant or to an immutable variable makes the whole call fail with the
mutable-self error and return no expression, while a binding that resolves to
a mutable variable passes the mutability check. -/
theorem method_requires_mutable_self
    (ctx : TypeCheckContext) (te : TypeEngine) (de : DeclarationEngine)
    (mnb : TypeBinding MethodName) (ccp : List StructExpressionField)
    (arguments : List Expression) (span : Span)
    (args_buf : List TyExpression) (te1 : TypeEngine)
    (w0 : List Warning) (e0 : List CompileError)
    (decl_id : Nat) (w1 : List Warning) (e1 : List CompileError)
    (te2 : TypeEngine) (de1 : DeclarationEngine) (method : TyFunctionDeclaration)
    (ccp_map : List (String × TyExpression)) (te3 : TypeEngine)
    (w2 : List Warning) (e4 : List CompileError)
    (idx : Option Nat) (w3 : List Warning) (e5 : List CompileError)
    (used : Bool)
    (arg0 : TyExpression) (name : Ident) (param0 : TyFunctionParameter)
    (hargs : type_check_arguments ctx te span arguments = (args_buf, te1, w0, e0))
    (hres : resolve_method_name ctx te1 de mnb args_buf = (.ok decl_id w1 e1, te2, de1))
    (hget : de1.get_function decl_id = some method)
    (hvis : ¬(span.path ≠ method.span.path ∧ method.visibility.is_private = true))
    (hcc : (if method.is_contract_call = true then
        type_check_contract_call_params ctx span ccp te2 []
      else ([], te2, [], [])) = (ccp_map, te3, w2, e4))
    (hcoins : (if method.is_contract_call = true then
        coins_check ctx method ccp_map span else none) = none)
    (hstor : determine_state_idx ctx.ns arguments span = .ok idx w3 e5)
    (hshape : associated_fn_shape_err method mnb.inner span = (none, used))
    (harg : args_buf.head? = some arg0)
    (hvar : arg0.expression = .VariableExpression name)
    (hparam : method.parameters.head? = some param0)
    (hmut : param0.is_mutable = true) :
    (∀ (d : TyDeclaration) (wrs : List Warning) (ers : List CompileError),
      ctx.ns.resolve_symbol name = .ok d wrs ers →
      (d = .ConstantDeclaration ∨ d = .VariableDeclaration .Immutable) →
      type_check_method_application ctx te de mnb ccp arguments span =
        (.err (w0 ++ w1 ++ w2 ++ w3 ++ wrs)
          (e0 ++ e1 ++ purity_and_call_param_errors ctx method mnb ccp ++
            (if method.is_contract_call = true then repeated_param_errors ccp span
             else []) ++
            e4 ++ e5 ++ (ers ++ [CompileError.MethodRequiresMutableSelf
              mnb.inner.easy_name name span])),
          te3, de1)) ∧
    (∀ (wrs : List Warning) (ers : List CompileError),
      ctx.ns.resolve_symbol name = .ok (.VariableDeclaration .Mutable) wrs ers →
      check_mutable_self ctx args_buf method mnb span = .ok () wrs ers) := by
  constructor
  · intro d wrs ers hsym hd
    have hm := check_mutable_self_not_mutable ctx args_buf method mnb span arg0 name
      param0 d wrs ers harg hvar hparam hmut hsym hd
    unfold type_check_method_application
    simp only [hargs, hres, hget]
    rw [if_neg hvis]
    simp only [hcc, hcoins, hstor, hshape, hm]
  · intro wrs ers hsym
    unfold check_mutable_self
    rw [harg, hparam]
    simp only [hvar, hmut, hsym]
    rfl

/-- Witness for C4: calling the mutable-self method on an immutable binding
aborts with the mutable-self error; on a mutable binding the mutability check
passes. -/
theorem method_requires_mutable_self_witness :
    (type_check_method_application ctxImm te0 deMut mnbTrait [] [argX] spanMain =
      (.err []
        [CompileError.MethodRequiresMutableSelf identFoo identX spanMain],
        ⟨[TypeInfo.Unknown]⟩, ⟨[methodMut, methodMut], [(1, 0)]⟩)) ∧
    (check_mutable_self ctx0 [argExprX] methodMut mnbTrait spanMain = .ok () [] []) :=
  ⟨(method_requires_mutable_self ctxImm te0 deMut mnbTrait [] [argX] spanMain
      [argExprX] ⟨[TypeInfo.Unknown]⟩ [] [] 1 [] [] ⟨[TypeInfo.Unknown]⟩
      ⟨[methodMut, methodMut], [(1, 0)]⟩ methodMut [] ⟨[TypeInfo.Unknown]⟩ [] []
      none [] [] false argExprX identX ⟨⟨"self", spanMain⟩, true, true, 5⟩
      rfl rfl rfl (by decide) rfl rfl rfl rfl rfl rfl rfl rfl).1
    (.VariableDeclaration .Immutable) [] [] rfl (Or.inr rfl),
   (method_requires_mutable_self ctx0 te0 deMut mnbTrait [] [argX] spanMain
      [argExprX] ⟨[TypeInfo.Unknown]⟩ [] [] 1 [] [] ⟨[TypeInfo.Unknown]⟩
      ⟨[methodMut, methodMut], [(1, 0)]⟩ methodMut [] ⟨[TypeInfo.Unknown]⟩ [] []
      none [] [] false argExprX identX ⟨⟨"self", spanMain⟩, true, true, 5⟩
      rfl rfl rfl (by decide) rfl rfl rfl rfl rfl rfl rfl rfl).2
    [] [] rfl⟩

/-- Inserting under a different key does not create an entry for `k`. -/
theorem mapLookup_mapInsert_ne (m : List (String × TyExpression)) (k k' : String)
    (v : TyExpression) (h : ¬ k' = k) :
    mapLookup (mapInsert m k' v) k = mapLookup m k := by
  induction m with
  | nil => simp [mapInsert, mapLookup, h]
  | cons hd tl ih =>
    by_cases hk : hd.1 = k'
    · simp [mapInsert, hk, mapLookup, h]
    · simp only [mapInsert, hk]
      by_cases hk2 : hd.1 = k
      · simp [mapLookup, hk2]
      · simp [mapLookup, hk2, ih]

/-- The contract-call parameter loop never creates a map entry for a name
that none of the supplied parameters bears. -/
theorem type_check_contract_call_params_no_entry (ctx : TypeCheckContext)
    (span : Span) (ps : List StructExpressionField) :
    ∀ (te : TypeEngine) (m : List (String × TyExpression)) (k : String),
      (∀ p ∈ ps, ¬ p.name.name = k) → mapLookup m k = none →
      mapLookup (type_check_contract_call_params ctx span ps te m).1 k = none := by
  induction ps with
  | nil => intro te m k _ hm; simpa [type_check_contract_call_params] using hm
  | cons p rest ih =>
    intro te m k hall hm
    have hp : ¬ p.name.name = k := hall p (by simp)
    have hrest : ∀ q ∈ rest, ¬ q.name.name = k := fun q hq => hall q (by simp [hq])
    unfold type_check_contract_call_params
    by_cases hleg : p.name.name = CONTRACT_CALL_GAS_PARAMETER_NAME ∨
        p.name.name = CONTRACT_CALL_COINS_PARAMETER_NAME ∨
        p.name.name = CONTRACT_CALL_ASSET_ID_PARAMETER_NAME
    · rw [if_pos hleg]
      simp only [TypeEngine.insert_type, TyExpression.error]
      cases htc : ctx.type_check te.types.length p.value with
      | ok v w e =>
        simp only [htc]
        exact ih _ _ k hrest (by rw [mapLookup_mapInsert_ne _ _ _ _ hp]; exact hm)
      | err w e =>
        simp only [htc, TyExpression.error, TypeEngine.insert_type]
        exact ih _ _ k hrest (by rw [mapLookup_mapInsert_ne _ _ _ _ hp]; exact hm)
    · rw [if_neg hleg]
      exact ih _ _ k hrest hm

/-- C3: for a contract call against a callee lacking the payable attribute,
a supplied `coins` expression that static analysis cannot prove zero makes
the whole call fail with the non-payable error and return no expression;
and when no supplied parameter is named `coins`, the error cannot occur and
the same call (all later checks passing) succeeds. -/
theorem coins_to_non_payable_method
    (ctx : TypeCheckContext) (te : TypeEngine) (de : DeclarationEngine)
    (mnb : TypeBinding MethodName) (ccp : List StructExpressionField)
    (arguments : List Expression) (span : Span)
    (args_buf : List TyExpression) (te1 : TypeEngine)
    (w0 : List Warning) (e0 : List CompileError)
    (decl_id : Nat) (w1 : List Warning) (e1 : List CompileError)
    (te2 : TypeEngine) (de1 : DeclarationEngine) (method : TyFunctionDeclaration)
    (ccp_map : List (String × TyExpression)) (te3 : TypeEngine)
    (w2 : List Warning) (e4 : List CompileError)
    (hargs : type_check_arguments ctx te span arguments = (args_buf, te1, w0, e0))
    (hres : resolve_method_name ctx te1 de mnb args_buf = (.ok decl_id w1 e1, te2, de1))
    (hget : de1.get_function decl_id = some method)
    (hvis : ¬(span.path ≠ method.span.path ∧ method.visibility.is_private = true))
    (hcontract : method.is_contract_call = true)
    (hpay : method.attributes.contains AttributeKind.Payable = false)
    (hcc : type_check_contract_call_params ctx span ccp te2 [] =
      (ccp_map, te3, w2, e4)) :
    ((∀ coins_expr : TyExpression,
      mapLookup ccp_map CONTRACT_CALL_COINS_PARAMETER_NAME = some coins_expr →
      ctx.possibly_nonzero_u64_expression coins_expr = true →
      type_check_method_application ctx te de mnb ccp arguments span =
        (.err (w0 ++ w1 ++ w2)
          (e0 ++ e1 ++ [] ++ repeated_param_errors ccp span ++ e4 ++
            [CompileError.CoinsPassedToNonPayableMethod method.name span]),
          te3, de1)) ∧
    (∀ (idx : Option Nat) (w3 : List Warning) (e5 : List CompileError)
        (used : Bool) (w4 : List Warning) (e6 : List CompileError)
        (selector : Option ContractCallParamsRes) (rest : List TyExpression)
        (w5 : List Warning) (e7 : List CompileError),
      (∀ p ∈ ccp, ¬ p.name.name = CONTRACT_CALL_COINS_PARAMETER_NAME) →
      determine_state_idx ctx.ns arguments span = .ok idx w3 e5 →
      associated_fn_shape_err method mnb.inner span = (none, used) →
      check_mutable_self ctx args_buf method mnb span = .ok () w4 e6 →
      build_selector ctx te3 method args_buf (compute_call_path mnb.inner) span =
        .ok (selector, rest) w5 e7 →
      method.parameters.length = rest.length →
      ∃ exp W E, type_check_method_application ctx te de mnb ccp arguments span =
        (.ok exp W E, te3, de1))) := by
  constructor
  · intro coins_expr hlook hnz
    have hck : coins_check ctx method ccp_map span =
        some (CompileError.CoinsPassedToNonPayableMethod method.name span) := by
      unfold coins_check
      simp only [hlook]
      rw [if_pos ⟨hnz, by rw [hpay]; exact Bool.false_ne_true⟩]
    unfold type_check_method_application
    simp only [hargs, hres, hget]
    rw [if_neg hvis]
    simp only [hcontract, ite_true, hcc, hck, purity_and_call_param_errors]
  · intro idx w3 e5 used w4 e6 selector rest w5 e7 hnone hstor hshape hmut hsel hlen
    have hmap : mapLookup ccp_map CONTRACT_CALL_COINS_PARAMETER_NAME = none := by
      have h2 := type_check_contract_call_params_no_entry ctx span ccp te2 []
        CONTRACT_CALL_COINS_PARAMETER_NAME hnone rfl
      rwa [hcc] at h2
    have hck : coins_check ctx method ccp_map span = none := by
      unfold coins_check
      rw [hmap]
    refine ⟨TyExpression.mk
        (TyExpressionVariant.FunctionApplication (compute_call_path mnb.inner) ccp_map
          ((method.parameters.zip rest).map (fun pa => (pa.1.name, pa.2)))
          decl_id idx selector)
        method.return_type span,
      w0 ++ w1 ++ w2 ++ w3 ++ w4 ++ w5 ++ [] ++
        (unify_arguments ctx rest method.parameters).1,
      e0 ++ e1 ++ [] ++ repeated_param_errors ccp span ++ e4 ++ e5 ++ e6 ++ e7 ++
        [] ++ (unify_arguments ctx rest method.parameters).2, ?_⟩
    unfold type_check_method_application
    simp only [hargs, hres, hget]
    rw [if_neg hvis]
    simp only [hcontract, ite_true, hcc, hck, hstor, hshape, hmut, hsel,
      check_function_arguments_arity, purity_and_call_param_errors]
    rw [if_pos hlen]

/-- Witness for C3: supplying `coins` (not provably zero) to the non-payable
contract method aborts with the non-payable error, while omitting `coins`
on the very same call succeeds. -/
theorem coins_to_non_payable_method_witness :
    (type_check_method_application ctxC teC deC mnbTrait ccpCoins [argCaller]
        spanMain =
      (.err [] [CompileError.CoinsPassedToNonPayableMethod identFoo spanMain],
        ⟨[TypeInfo.ContractCaller 0 (some addrExpr), TypeInfo.Unknown,
          TypeInfo.UnsignedInteger IntegerBits.SixtyFour]⟩,
        ⟨[methodContract, methodContract], [(1, 0)]⟩)) ∧
    (∃ exp W E,
      type_check_method_application ctxC teC deC mnbTrait [] [argCaller] spanMain =
        (.ok exp W E,
          ⟨[TypeInfo.ContractCaller 0 (some addrExpr), TypeInfo.Unknown]⟩,
          ⟨[methodContract, methodContract], [(1, 0)]⟩)) :=
  ⟨(coins_to_non_payable_method ctxC teC deC mnbTrait ccpCoins [argCaller] spanMain
      [argExprCaller] ⟨[TypeInfo.ContractCaller 0 (some addrExpr), TypeInfo.Unknown]⟩
      [] [] 1 [] []
      ⟨[TypeInfo.ContractCaller 0 (some addrExpr), TypeInfo.Unknown]⟩
      ⟨[methodContract, methodContract], [(1, 0)]⟩ methodContract
      [("coins", argExprCaller)]
      ⟨[TypeInfo.ContractCaller 0 (some addrExpr), TypeInfo.Unknown,
        TypeInfo.UnsignedInteger IntegerBits.SixtyFour]⟩ [] []
      rfl rfl rfl (by decide) rfl rfl rfl).1 argExprCaller rfl rfl,
   (coins_to_non_payable_method ctxC teC deC mnbTrait [] [argCaller] spanMain
      [argExprCaller] ⟨[TypeInfo.ContractCaller 0 (some addrExpr), TypeInfo.Unknown]⟩
      [] [] 1 [] []
      ⟨[TypeInfo.ContractCaller 0 (some addrExpr), TypeInfo.Unknown]⟩
      ⟨[methodContract, methodContract], [(1, 0)]⟩ methodContract
      [] ⟨[TypeInfo.ContractCaller 0 (some addrExpr), TypeInfo.Unknown]⟩ [] []
      rfl rfl rfl (by decide) rfl rfl rfl).2 none [] [] false [] []
      (some (ContractCallParamsRes.mk [1, 2, 3, 4] addrExpr)) [] [] []
      (by simp) rfl rfl rfl rfl rfl⟩

/-- C9: a successful run of `resolve_method_name` inserts the monomorphized
declaration as a fresh entry of the declaration store (its id was not a valid
id before) and records the pre-instantiation id as the new id's parent; a
second successful resolution of the same pre-instantiation declaration on the
resulting store yields a second, distinct id, and both ids carry the original
id as parent link. -/
theorem resolve_method_name_inserts_fresh_with_parent
    (ctx : TypeCheckContext) (te : TypeEngine) (de : DeclarationEngine)
    (mnb : TypeBinding MethodName) (args : List TyExpression)
    (d0 : Nat) (wd : List Warning) (ed : List CompileError) (teA : TypeEngine)
    (f g : TyFunctionDeclaration) (wm : List Warning) (em : List CompileError)
    (args2 : List TyExpression) (wd2 : List Warning) (ed2 : List CompileError)
    (te2' : TypeEngine) (g2 : TyFunctionDeclaration)
    (wm2 : List Warning) (em2 : List CompileError)
    (hdid : resolve_decl_id ctx te mnb args = (.ok d0 wd ed, teA))
    (hget : de.get_function d0 = some f)
    (hmono : ctx.monomorphize f mnb.type_arguments mnb.span = .ok g wm em)
    (hdid2 : resolve_decl_id ctx teA mnb args2 = (.ok d0 wd2 ed2, te2'))
    (hmono2 : ctx.monomorphize f mnb.type_arguments mnb.span = .ok g2 wm2 em2) :
    (resolve_method_name ctx te de mnb args =
      (.ok de.functions.length (wd ++ wm) (ed ++ em), teA,
        ⟨de.functions ++ [g], de.parents ++ [(de.functions.length, d0)]⟩) ∧
     de.get_function de.functions.length = none) ∧
    (resolve_method_name ctx teA
        ⟨de.functions ++ [g], de.parents ++ [(de.functions.length, d0)]⟩ mnb args2 =
      (.ok (de.functions.length + 1) (wd2 ++ wm2) (ed2 ++ em2), te2',
        ⟨de.functions ++ [g] ++ [g2],
          (de.parents ++ [(de.functions.length, d0)]) ++
            [(de.functions.length + 1, d0)]⟩)) ∧
    ((de.functions.length, d0) ∈
        (de.parents ++ [(de.functions.length, d0)]) ++
          [(de.functions.length + 1, d0)] ∧
      (de.functions.length + 1, d0) ∈
        (de.parents ++ [(de.functions.length, d0)]) ++
          [(de.functions.length + 1, d0)] ∧
      de.functions.length ≠ de.functions.length + 1) := by
  have hlt : d0 < de.functions.length := by
    have h := hget
    unfold DeclarationEngine.get_function at h
    exact (List.get?_eq_some.mp h).1
  have hget2 : DeclarationEngine.get_function
      ⟨de.functions ++ [g], de.parents ++ [(de.functions.length, d0)]⟩ d0 = some f := by
    unfold DeclarationEngine.get_function at hget ⊢
    rw [List.get?_append hlt]
    exact hget
  refine ⟨⟨?_, ?_⟩, ?_, ?_, ?_, ?_⟩
  · unfold resolve_method_name
    simp only [hdid, hget, hmono, DeclarationEngine.insert_function,
      DeclarationEngine.with_parent]
  · unfold DeclarationEngine.get_function
    exact List.get?_eq_none.mpr (le_refl _)
  · unfold resolve_method_name
    simp only [hdid2, hget2, hmono2, DeclarationEngine.insert_function,
      DeclarationEngine.with_parent, List.length_append, List.length_singleton]
  · simp
  · simp
  · omega

/-- Witness for C9: two successive resolutions of the generic declaration
with id 0 yield the fresh ids 1 and 2, both recorded with parent 0. -/
theorem resolve_method_name_inserts_fresh_with_parent_witness :
    (resolve_method_name ctx0 te0 de0 mnbTrait [argExprX] =
      (.ok 1 [] [], te0, ⟨[methodPub, methodPub], [(1, 0)]⟩) ∧
     de0.get_function 1 = none) ∧
    (resolve_method_name ctx0 te0 ⟨[methodPub, methodPub], [(1, 0)]⟩ mnbTrait
        [argExprX] =
      (.ok 2 [] [], te0, ⟨[methodPub, methodPub, methodPub], [(1, 0), (2, 0)]⟩)) ∧
    ((1, 0) ∈ [(1, 0), (2, 0)] ∧ (2, 0) ∈ [(1, 0), (2, 0)] ∧ (1 : Nat) ≠ 2) :=
  resolve_method_name_inserts_fresh_with_parent ctx0 te0 de0 mnbTrait [argExprX]
    0 [] [] te0 methodPub methodPub [] [] [argExprX] [] [] te0 methodPub [] []
    rfl rfl rfl rfl rfl

/-- The unrecognized-parameter diagnostics of the contract-call parameter
loop are exactly one per unrecognized occurrence, in order, each carrying
that parameter's own location — provided the recursive expression checker
never emits a diagnostic of that kind itself. -/
theorem type_check_contract_call_params_unrecognized (ctx : TypeCheckContext)
    (span : Span)
    (hclean : ∀ (tid : TypeId) (ex : Expression),
      (ctx.type_check tid ex).errors.filter is_unrecognized_param_error = []) :
    ∀ (ps : List StructExpressionField) (te : TypeEngine)
      (m : List (String × TyExpression)),
      (type_check_contract_call_params ctx span ps te m).2.2.2.filter
          is_unrecognized_param_error =
        (ps.filter (fun p => !(p.name.name == CONTRACT_CALL_GAS_PARAMETER_NAME ||
            p.name.name == CONTRACT_CALL_COINS_PARAMETER_NAME ||
            p.name.name == CONTRACT_CALL_ASSET_ID_PARAMETER_NAME))).map
          (fun p => CompileError.UnrecognizedContractParam p.name.name p.name.span) := by
  intro ps
  induction ps with
  | nil => intro te m; simp [type_check_contract_call_params]
  | cons p rest ih =>
    intro te m
    unfold type_check_contract_call_params
    by_cases hleg : p.name.name = CONTRACT_CALL_GAS_PARAMETER_NAME ∨
        p.name.name = CONTRACT_CALL_COINS_PARAMETER_NAME ∨
        p.name.name = CONTRACT_CALL_ASSET_ID_PARAMETER_NAME
    · rw [if_pos hleg]
      have hb : (!(p.name.name == CONTRACT_CALL_GAS_PARAMETER_NAME ||
          p.name.name == CONTRACT_CALL_COINS_PARAMETER_NAME ||
          p.name.name == CONTRACT_CALL_ASSET_ID_PARAMETER_NAME)) = false := by
        rcases hleg with h | h | h <;> simp [h]
      simp only [TypeEngine.insert_type, TyExpression.error]
      cases htc : ctx.type_check te.types.length p.value with
      | ok v w e =>
        have he := hclean te.types.length p.value
        rw [htc] at he
        simp only [htc, List.filter_cons, hb, List.filter_append]
        rw [ih]
        simp only [CompileResult.errors] at he
        simp [he]
      | err w e =>
        have he := hclean te.types.length p.value
        rw [htc] at he
        simp only [htc, TyExpression.error, TypeEngine.insert_type,
          List.filter_cons, hb, List.filter_append]
        rw [ih]
        simp only [CompileResult.errors] at he
        simp [he]
    · rw [if_neg hleg]
      have hb : (!(p.name.name == CONTRACT_CALL_GAS_PARAMETER_NAME ||
          p.name.name == CONTRACT_CALL_COINS_PARAMETER_NAME ||
          p.name.name == CONTRACT_CALL_ASSET_ID_PARAMETER_NAME)) = true := by
        push_neg at hleg
        simp [hleg.1, hleg.2.1, hleg.2.2]
      simp only [List.filter_cons, hb]
      rw [ih]
      simp [is_unrecognized_param_error]

/-- C6: among the contract-call parameter diagnostics, each of the three
legal names (`gas`, `coins`, `asset_id`) produces exactly one
repeated-parameter diagnostic precisely when supplied more than once, and
every unrecognized name produces one diagnostic per occurrence, carrying
that occurrence's own source location. -/
theorem contract_call_param_diagnostics
    (ctx : TypeCheckContext) (span : Span) (ccp : List StructExpressionField)
    (te : TypeEngine)
    (hclean : ∀ (tid : TypeId) (ex : Expression),
      (ctx.type_check tid ex).errors.filter is_unrecognized_param_error = []) :
    (∀ name ∈ [CONTRACT_CALL_GAS_PARAMETER_NAME, CONTRACT_CALL_COINS_PARAMETER_NAME,
        CONTRACT_CALL_ASSET_ID_PARAMETER_NAME],
      (repeated_param_errors ccp span).filter (is_repeated_for name) =
        if 1 < (ccp.filter (fun p => p.name.name == name)).length then
          [CompileError.ContractCallParamRepeated name span]
        else []) ∧
    ((type_check_contract_call_params ctx span ccp te []).2.2.2.filter
        is_unrecognized_param_error =
      (ccp.filter (fun p => !(p.name.name == CONTRACT_CALL_GAS_PARAMETER_NAME ||
          p.name.name == CONTRACT_CALL_COINS_PARAMETER_NAME ||
          p.name.name == CONTRACT_CALL_ASSET_ID_PARAMETER_NAME))).map
        (fun p => CompileError.UnrecognizedContractParam p.name.name p.name.span)) := by
  constructor
  · intro name hname
    unfold repeated_param_errors
    simp only [CONTRACT_CALL_GAS_PARAMETER_NAME, CONTRACT_CALL_COINS_PARAMETER_NAME,
      CONTRACT_CALL_ASSET_ID_PARAMETER_NAME, List.mem_cons,
      List.not_mem_nil, or_false] at hname ⊢
    by_cases h1 : 1 < (ccp.filter (fun p => p.name.name == "gas")).length <;>
      by_cases h2 : 1 < (ccp.filter (fun p => p.name.name == "coins")).length <;>
      by_cases h3 : 1 < (ccp.filter (fun p => p.name.name == "asset_id")).length <;>
      rcases hname with h | h | h <;> subst h <;>
      simp [h1, h2, h3, is_repeated_for]
  · exact type_check_contract_call_params_unrecognized ctx span hclean ccp te []

/-- Witness for C6: `gas` supplied twice yields exactly one repeated-`gas`
diagnostic, and the unknown `foo` yields exactly one unrecognized diagnostic
carrying `foo`'s own location. -/
theorem contract_call_param_diagnostics_witness :
    ((repeated_param_errors ccpW spanMain).filter (is_repeated_for "gas") =
      [CompileError.ContractCallParamRepeated "gas" spanMain]) ∧
    ((type_check_contract_call_params ctx0 spanMain ccpW te0 []).2.2.2.filter
        is_unrecognized_param_error =
      [CompileError.UnrecognizedContractParam "foo" spanLib]) :=
  ⟨by
    have h := (contract_call_param_diagnostics ctx0 spanMain ccpW te0
      (fun _ _ => rfl)).1 CONTRACT_CALL_GAS_PARAMETER_NAME (by simp)
    simpa [ccpW, identGas, identGasB, identFooP,
      CONTRACT_CALL_GAS_PARAMETER_NAME] using h,
   by
    have h := (contract_call_param_diagnostics ctx0 spanMain ccpW te0
      (fun _ _ => rfl)).2
    simpa [ccpW, identGas, identGasB, identFooP] using h⟩

/-- When every check of `type_check_method_application` passes, the function
assembles and returns exactly the final typed call expression: the computed
call path, contract-parameter map, parameter-name/argument zip, resolved
declaration id, storage index and selector, with the declaration's return
type and the call's span. -/
theorem tcma_ok_of_checks
    (ctx : TypeCheckContext) (te : TypeEngine) (de : DeclarationEngine)
    (mnb : TypeBinding MethodName) (ccp : List StructExpressionField)
    (arguments : List Expression) (span : Span)
    (args_buf : List TyExpression) (te1 : TypeEngine)
    (w0 : List Warning) (e0 : List CompileError)
    (decl_id : Nat) (w1 : List Warning) (e1 : List CompileError)
    (te2 : TypeEngine) (de1 : DeclarationEngine) (method : TyFunctionDeclaration)
    (ccp_map : List (String × TyExpression)) (te3 : TypeEngine)
    (w2 : List Warning) (e4 : List CompileError)
    (idx : Option Nat) (w3 : List Warning) (e5 : List CompileError)
    (used : Bool) (w4 : List Warning) (e6 : List CompileError)
    (selector : Option ContractCallParamsRes) (rest : List TyExpression)
    (w5 : List Warning) (e7 : List CompileError)
    (hargs : type_check_arguments ctx te span arguments = (args_buf, te1, w0, e0))
    (hres : resolve_method_name ctx te1 de mnb args_buf = (.ok decl_id w1 e1, te2, de1))
    (hget : de1.get_function decl_id = some method)
    (hvis : ¬(span.path ≠ method.span.path ∧ method.visibility.is_private = true))
    (hcc : (if method.is_contract_call = true then
        type_check_contract_call_params ctx span ccp te2 []
      else ([], te2, [], [])) = (ccp_map, te3, w2, e4))
    (hcoins : (if method.is_contract_call = true then
        coins_check ctx method ccp_map span else none) = none)
    (hstor : determine_state_idx ctx.ns arguments span = .ok idx w3 e5)
    (hshape : associated_fn_shape_err method mnb.inner span = (none, used))
    (hmut : check_mutable_self ctx args_buf method mnb span = .ok () w4 e6)
    (hsel : build_selector ctx te3 method args_buf (compute_call_path mnb.inner) span =
      .ok (selector, rest) w5 e7)
    (hlen : method.parameters.length = rest.length) :
    type_check_method_application ctx te de mnb ccp arguments span =
      (.ok (TyExpression.mk
          (TyExpressionVariant.FunctionApplication (compute_call_path mnb.inner)
            ccp_map ((method.parameters.zip rest).map (fun pa => (pa.1.name, pa.2)))
            decl_id idx selector)
          method.return_type span)
        (w0 ++ w1 ++ w2 ++ w3 ++ w4 ++ w5 ++ [] ++
          (unify_arguments ctx rest method.parameters).1)
        (e0 ++ e1 ++ purity_and_call_param_errors ctx method mnb ccp ++
          (if method.is_contract_call = true then repeated_param_errors ccp span
           else []) ++ e4 ++ e5 ++ e6 ++ e7 ++ [] ++
          (unify_arguments ctx rest method.parameters).2),
        te3, de1) := by
  unfold type_check_method_application
  simp only [hargs, hres, hget]
  rw [if_neg hvis]
  simp only [hcc, hcoins, hstor, hshape, hmut, hsel, check_function_arguments_arity]
  rw [if_pos hlen]

/-- When the unifier reports no errors on any argument/parameter pair, the
unification loop emits no diagnostics. -/
theorem unify_arguments_errors_nil (ctx : TypeCheckContext) :
    ∀ (args : List TyExpression) (ps : List TyFunctionParameter),
      (∀ arg param,
        (arg, param) ∈ args.zip ps →
        (ctx.unify_right_with_self arg.return_type param.type_id ctx.self_type
          arg.span).2 = []) →
      (unify_arguments ctx args ps).2 = [] := by
  intro args
  induction args with
  | nil => intro ps _; cases ps <;> rfl
  | cons a as ih =>
    intro ps h
    cases ps with
    | nil => rfl
    | cons p pstl =>
      unfold unify_arguments
      have ha := h a p (by simp)
      simp only [ha, List.isEmpty_nil, if_pos]
      have := ih pstl (fun arg param hm => h arg param (by simp [hm]))
      simp [this]

/-- C1: a call whose (post contract-caller-removal) argument count equals the
resolved declaration's parameter count and whose argument types all unify
with the declared parameter types — and which passes the other semantic
validators of the pipeline — succeeds: it returns a typed call expression
whose return type is exactly the resolved declaration's declared return
type, and the unification loop contributes no diagnostics. -/
theorem resolution_succeeds_and_returns_declared_type
    (ctx : TypeCheckContext) (te : TypeEngine) (de : DeclarationEngine)
    (mnb : TypeBinding MethodName) (ccp : List StructExpressionField)
    (arguments : List Expression) (span : Span)
    (args_buf : List TyExpression) (te1 : TypeEngine)
    (w0 : List Warning) (e0 : List CompileError)
    (decl_id : Nat) (w1 : List Warning) (e1 : List CompileError)
    (te2 : TypeEngine) (de1 : DeclarationEngine) (method : TyFunctionDeclaration)
    (ccp_map : List (String × TyExpression)) (te3 : TypeEngine)
    (w2 : List Warning) (e4 : List CompileError)
    (idx : Option Nat) (w3 : List Warning) (e5 : List CompileError)
    (used : Bool) (w4 : List Warning) (e6 : List CompileError)
    (selector : Option ContractCallParamsRes) (rest : List TyExpression)
    (w5 : List Warning) (e7 : List CompileError)
    (hargs : type_check_arguments ctx te span arguments = (args_buf, te1, w0, e0))
    (hres : resolve_method_name ctx te1 de mnb args_buf = (.ok decl_id w1 e1, te2, de1))
    (hget : de1.get_function decl_id = some method)
    (hvis : ¬(span.path ≠ method.span.path ∧ method.visibility.is_private = true))
    (hcc : (if method.is_contract_call = true then
        type_check_contract_call_params ctx span ccp te2 []
      else ([], te2, [], [])) = (ccp_map, te3, w2, e4))
    (hcoins : (if method.is_contract_call = true then
        coins_check ctx method ccp_map span else none) = none)
    (hstor : determine_state_idx ctx.ns arguments span = .ok idx w3 e5)
    (hshape : associated_fn_shape_err method mnb.inner span = (none, used))
    (hmut : check_mutable_self ctx args_buf method mnb span = .ok () w4 e6)
    (hsel : build_selector ctx te3 method args_buf (compute_call_path mnb.inner) span =
      .ok (selector, rest) w5 e7)
    (hlen : method.parameters.length = rest.length)
    (hunify : ∀ arg param, (arg, param) ∈ rest.zip method.parameters →
      (ctx.unify_right_with_self arg.return_type param.type_id ctx.self_type
        arg.span).2 = []) :
    ∃ exp W E,
      type_check_method_application ctx te de mnb ccp arguments span =
        (.ok exp W E, te3, de1) ∧
      exp.return_type = method.return_type ∧
      (unify_arguments ctx rest method.parameters).2 = [] := by
  have h := tcma_ok_of_checks ctx te de mnb ccp arguments span args_buf te1 w0 e0
    decl_id w1 e1 te2 de1 method ccp_map te3 w2 e4 idx w3 e5 used w4 e6 selector
    rest w5 e7 hargs hres hget hvis hcc hcoins hstor hshape hmut hsel hlen
  exact ⟨_, _, _, h, rfl,
    unify_arguments_errors_nil ctx rest method.parameters hunify⟩

/-- Witness for C1: a concrete one-argument call to the public one-parameter
method succeeds and the produced expression's return type is the
declaration's declared return type (handle 7). -/
theorem resolution_succeeds_and_returns_declared_type_witness :
    ∃ exp W E,
      type_check_method_application ctx0 te0 de0 mnbTrait [] [argX] spanMain =
        (.ok exp W E, ⟨[TypeInfo.Unknown]⟩, ⟨[methodPub, methodPub], [(1, 0)]⟩) ∧
      exp.return_type = methodPub.return_type ∧
      (unify_arguments ctx0 [argExprX] methodPub.parameters).2 = [] :=
  resolution_succeeds_and_returns_declared_type ctx0 te0 de0 mnbTrait [] [argX]
    spanMain [argExprX] ⟨[TypeInfo.Unknown]⟩ [] [] 1 [] [] ⟨[TypeInfo.Unknown]⟩
    ⟨[methodPub, methodPub], [(1, 0)]⟩ methodPub [] ⟨[TypeInfo.Unknown]⟩ [] []
    none [] [] false [] [] none [argExprX] [] []
    rfl rfl rfl (by decide) rfl rfl rfl rfl rfl rfl rfl (fun _ _ _ => rfl)

/-- Counterexample to C7: supplying two contract-call-style parameters to a
non-contract call produces exactly one stray-call-parameter diagnostic, not
one per supplied parameter. -/
theorem call_param_for_non_contract_counterexample :
    ccp2.length = 2 ∧
    ((type_check_method_application ctx0 te0 de0 mnbTrait ccp2 [argX]
        spanMain).1.errors.countP is_call_param_for_non_contract = 1) ∧
    ¬((type_check_method_application ctx0 te0 de0 mnbTrait ccp2 [argX]
        spanMain).1.errors.countP is_call_param_for_non_contract = ccp2.length) :=
  ⟨rfl, rfl, by decide⟩

/-- C7 (amended): contract-call-style parameters supplied to a non-contract
call are reported by a single stray-call-parameter diagnostic — one for the
whole list, not one per parameter — carrying the first supplied parameter's
location, and the check does not abort resolution (the call still produces
an expression when the remaining checks pass). -/
theorem call_param_for_non_contract_reported_once
    (ctx : TypeCheckContext) (te : TypeEngine) (de : DeclarationEngine)
    (mnb : TypeBinding MethodName) (ccp : List StructExpressionField)
    (arguments : List Expression) (span : Span)
    (args_buf : List TyExpression) (te1 : TypeEngine)
    (w0 : List Warning) (e0 : List CompileError)
    (decl_id : Nat) (w1 : List Warning) (e1 : List CompileError)
    (te2 : TypeEngine) (de1 : DeclarationEngine) (method : TyFunctionDeclaration)
    (idx : Option Nat) (w3 : List Warning) (e5 : List CompileError)
    (used : Bool) (w4 : List Warning) (e6 : List CompileError)
    (p : StructExpressionField) (ps : List StructExpressionField)
    (hnc : method.is_contract_call = false)
    (hccp : ccp = p :: ps)
    (hargs : type_check_arguments ctx te span arguments = (args_buf, te1, w0, e0))
    (hres : resolve_method_name ctx te1 de mnb args_buf = (.ok decl_id w1 e1, te2, de1))
    (hget : de1.get_function decl_id = some method)
    (hvis : ¬(span.path ≠ method.span.path ∧ method.visibility.is_private = true))
    (hstor : determine_state_idx ctx.ns arguments span = .ok idx w3 e5)
    (hshape : associated_fn_shape_err method mnb.inner span = (none, used))
    (hmut : check_mutable_self ctx args_buf method mnb span = .ok () w4 e6)
    (hlen : method.parameters.length = args_buf.length) :
    ((purity_and_call_param_errors ctx method mnb ccp).filter
        is_call_param_for_non_contract =
      [CompileError.CallParamForNonContractCallMethod p.name.span]) ∧
    (∃ exp W E, type_check_method_application ctx te de mnb ccp arguments span =
      (.ok exp W E, te2, de1)) := by
  constructor
  · unfold purity_and_call_param_errors
    rw [hnc, hccp]
    by_cases hcan : ctx.can_call ctx.purity method.purity = true <;>
      simp [hcan, is_call_param_for_non_contract]
  · have hcc : (if method.is_contract_call = true then
        type_check_contract_call_params ctx span ccp te2 []
      else ([], te2, [], [])) = ([], te2, [], []) := by rw [hnc]; rfl
    have hcoins : (if method.is_contract_call = true then
        coins_check ctx method [] span else none) = none := by rw [hnc]; rfl
    have hsel : build_selector ctx te2 method args_buf (compute_call_path mnb.inner)
        span = .ok (none, args_buf) [] [] := by
      unfold build_selector
      rw [hnc]; rfl
    exact ⟨_, _, _, tcma_ok_of_checks ctx te de mnb ccp arguments span args_buf te1
      w0 e0 decl_id w1 e1 te2 de1 method [] te2 [] [] idx w3 e5 used w4 e6 none
      args_buf [] [] hargs hres hget hvis hcc hcoins hstor hshape hmut hsel hlen⟩

/-- Witness for the amended C7: the two stray parameters of `ccp2` yield the
single diagnostic at the first parameter's location while the call still
succeeds. -/
theorem call_param_for_non_contract_reported_once_witness :
    ((purity_and_call_param_errors ctx0 methodPub mnbTrait ccp2).filter
        is_call_param_for_non_contract =
      [CompileError.CallParamForNonContractCallMethod spanMain]) ∧
    (∃ exp W E, type_check_method_application ctx0 te0 de0 mnbTrait ccp2 [argX]
        spanMain =
      (.ok exp W E, ⟨[TypeInfo.Unknown]⟩, ⟨[methodPub, methodPub], [(1, 0)]⟩)) :=
  call_param_for_non_contract_reported_once ctx0 te0 de0 mnbTrait ccp2 [argX]
    spanMain [argExprX] ⟨[TypeInfo.Unknown]⟩ [] [] 1 [] [] ⟨[TypeInfo.Unknown]⟩
    ⟨[methodPub, methodPub], [(1, 0)]⟩ methodPub none [] [] false [] []
    ⟨identGas, argX⟩ [⟨identFooP, argX⟩]
    rfl rfl rfl rfl rfl (by decide) rfl rfl rfl rfl

/-- Counterexample to C8: in a namespace with no storage declared, a call
whose first argument syntactically is a storage-field access still resolves
to a final typed expression, and that expression's storage field index is
`none` — the claimed iff (index set exactly when the first argument is a
storage access) fails. -/
theorem storage_field_index_counterexample :
    ([argStorageB].head?.map Expression.kind =
      some (ExpressionKind.StorageAccess [identBalance])) ∧
    ((type_check_method_application ctx0 te0 de0 mnbTrait [] [argStorageB]
        spanMain).1 = .ok expStorageNone [] []) ∧
    getSelfStateIdx expStorageNone = some none :=
  ⟨rfl, rfl, rfl⟩

/-- A successful storage-index computation yields a set index exactly when
storage is declared and the first argument syntactically is a storage
access. -/
theorem determine_state_idx_isSome_iff
    (ns : Namespace) (arguments : List Expression) (span : Span)
    (idx : Option Nat) (w : List Warning) (e : List CompileError)
    (h : determine_state_idx ns arguments span = .ok idx w e) :
    (idx.isSome = true ↔ (ns.has_storage_declared = true ∧
      ∃ fns, arguments.head?.map Expression.kind =
        some (ExpressionKind.StorageAccess fns))) := by
  unfold determine_state_idx at h
  by_cases hs : ns.has_storage_declared = true
  · rw [hs, if_pos rfl] at h
    cases hd : ns.storage_field_descriptors with
    | err wq eq => rw [hd] at h; cases h
    | ok fields wq eq =>
      simp only [hd] at h
      cases hk : arguments.head?.map Expression.kind with
      | none =>
        simp only [hk, CompileResult.ok.injEq] at h
        simp [← h.1, hs, hk]
      | some k =>
        cases k with
        | StorageAccess fns =>
          simp only [hk] at h
          cases hf : fields.enum.find?
              (fun p => p.2.name.name == (fns.headD ⟨"", ⟨none, ""⟩⟩).name) with
          | some pr =>
            simp only [hf, CompileResult.ok.injEq] at h
            simp only [← h.1, Option.isSome_some, true_iff]
            exact ⟨hs, fns, rfl⟩
          | none => simp only [hf] at h; simp at h
        | OtherKind t =>
          simp only [hk, CompileResult.ok.injEq] at h
          simp [← h.1, hs, hk]
  · rw [if_neg hs] at h
    simp only [CompileResult.ok.injEq] at h
    simp [← h.1, hs]

/-- C8 (amended): a call that resolves to a final typed expression carries a
storage field index that is set exactly when storage is declared in the
namespace and the call's first argument syntactically is a storage-field
access (whose first field is then necessarily among the declared fields,
since a missing field aborts); in particular it is `none` whenever no
storage is declared, for calls without arguments and for non-storage first
arguments. -/
theorem storage_field_index_characterization
    (ctx : TypeCheckContext) (te : TypeEngine) (de : DeclarationEngine)
    (mnb : TypeBinding MethodName) (ccp : List StructExpressionField)
    (arguments : List Expression) (span : Span)
    (args_buf : List TyExpression) (te1 : TypeEngine)
    (w0 : List Warning) (e0 : List CompileError)
    (decl_id : Nat) (w1 : List Warning) (e1 : List CompileError)
    (te2 : TypeEngine) (de1 : DeclarationEngine) (method : TyFunctionDeclaration)
    (ccp_map : List (String × TyExpression)) (te3 : TypeEngine)
    (w2 : List Warning) (e4 : List CompileError)
    (idx : Option Nat) (w3 : List Warning) (e5 : List CompileError)
    (used : Bool) (w4 : List Warning) (e6 : List CompileError)
    (selector : Option ContractCallParamsRes) (rest : List TyExpression)
    (w5 : List Warning) (e7 : List CompileError)
    (hargs : type_check_arguments ctx te span arguments = (args_buf, te1, w0, e0))
    (hres : resolve_method_name ctx te1 de mnb args_buf = (.ok decl_id w1 e1, te2, de1))
    (hget : de1.get_function decl_id = some method)
    (hvis : ¬(span.path ≠ method.span.path ∧ method.visibility.is_private = true))
    (hcc : (if method.is_contract_call = true then
        type_check_contract_call_params ctx span ccp te2 []
      else ([], te2, [], [])) = (ccp_map, te3, w2, e4))
    (hcoins : (if method.is_contract_call = true then
        coins_check ctx method ccp_map span else none) = none)
    (hstor : determine_state_idx ctx.ns arguments span = .ok idx w3 e5)
    (hshape : associated_fn_shape_err method mnb.inner span = (none, used))
    (hmut : check_mutable_self ctx args_buf method mnb span = .ok () w4 e6)
    (hsel : build_selector ctx te3 method args_buf (compute_call_path mnb.inner) span =
      .ok (selector, rest) w5 e7)
    (hlen : method.parameters.length = rest.length) :
    ∃ exp W E,
      type_check_method_application ctx te de mnb ccp arguments span =
        (.ok exp W E, te3, de1) ∧
      getSelfStateIdx exp = some idx ∧
      (idx.isSome = true ↔ (ctx.ns.has_storage_declared = true ∧
        ∃ fns, arguments.head?.map Expression.kind =
          some (ExpressionKind.StorageAccess fns))) := by
  have h := tcma_ok_of_checks ctx te de mnb ccp arguments span args_buf te1 w0 e0
    decl_id w1 e1 te2 de1 method ccp_map te3 w2 e4 idx w3 e5 used w4 e6 selector
    rest w5 e7 hargs hres hget hvis hcc hcoins hstor hshape hmut hsel hlen
  exact ⟨_, _, _, h, rfl,
    determine_state_idx_isSome_iff ctx.ns arguments span idx w3 e5 hstor⟩

/-- Witness for the amended C8: with storage declared and `storage.balance`
as first argument the produced expression's index is `some 0`, matching the
characterization. -/
theorem storage_field_index_characterization_witness :
    ∃ exp W E,
      type_check_method_application ctxStor te0 de0 mnbTrait [] [argStorageB]
          spanMain =
        (.ok exp W E, ⟨[TypeInfo.Unknown]⟩, ⟨[methodPub, methodPub], [(1, 0)]⟩) ∧
      getSelfStateIdx exp = some (some 0) ∧
      ((some 0 : Option Nat).isSome = true ↔
        (ctxStor.ns.has_storage_declared = true ∧
          ∃ fns, [argStorageB].head?.map Expression.kind =
            some (ExpressionKind.StorageAccess fns))) :=
  storage_field_index_characterization ctxStor te0 de0 mnbTrait [] [argStorageB]
    spanMain [argExprX] ⟨[TypeInfo.Unknown]⟩ [] [] 1 [] [] ⟨[TypeInfo.Unknown]⟩
    ⟨[methodPub, methodPub], [(1, 0)]⟩ methodPub [] ⟨[TypeInfo.Unknown]⟩ [] []
    (some 0) [] [] false [] [] none [argExprX] [] []
    rfl rfl rfl (by decide) rfl rfl rfl rfl rfl rfl rfl
